import Mathlib

/-!
Shallow embedding of the Plummy scraper's normalization and pricing pipeline
(`category_filter.py`, `price_calculator.py`, `product_processor.py`).

Conventions of the embedding:
* Python numbers (prices, size thresholds) are modelled as `ℚ`; Python `dict.get`
  with a default is modelled either by an `Option` field plus `getD` or by folding
  the default into the field, whichever the use sites make faithful.
* Python functions that can raise inside a `try/except` are modelled as
  `Option`-returning functions (`none` = the exception path).
* The unbounded recursion of `CategoryFilter.is_child_of` is modelled with an
  explicit fuel argument: `some b` means the Python call returns `b` within that
  recursion depth, `none` means the depth is exhausted.
* `float(...)` applied to size labels is modelled by `parseDecimal`, a parser for
  plain decimal literals (optional sign, digits, optional fraction, surrounding
  whitespace) — the subset of Python float syntax that size labels actually use.
-/

/-! ### String helpers

Python string operations, implemented structurally over `List Char` (the
built-in `String.trim`/`toUpper`/`endsWith` recurse on byte positions, which
the kernel cannot evaluate). -/

/-- First list is a prefix of the second (char-for-char). -/
def listStartsWith : List Char → List Char → Bool
  | [], _ => true
  | _ :: _, [] => false
  | a :: as, b :: bs => a = b && listStartsWith as bs

/-- `p` occurs as a contiguous run inside `s` (Python `p in s` on strings). -/
def listContainsSeq (p : List Char) : List Char → Bool
  | [] => listStartsWith p []
  | s@(_ :: rest) => listStartsWith p s || listContainsSeq p rest

/-- Python substring test `pat in s`. -/
def strContainsSub (s pat : String) : Bool :=
  listContainsSeq pat.toList s.toList

/-- Python `s.strip()`: drop leading and trailing whitespace. -/
def pyStrip (s : String) : String :=
  String.mk
    (((s.toList.dropWhile (fun c => c.isWhitespace)).reverse.dropWhile
      (fun c => c.isWhitespace)).reverse)

/-- Python `s.upper()` (the call sites only uppercase ASCII letters). -/
def pyUpper (s : String) : String := String.mk (s.toList.map (fun c => c.toUpper))

/-- Python `s.endswith(suffix)`. -/
def pyEndsWith (s suffix : String) : Bool :=
  listStartsWith suffix.toList.reverse s.toList.reverse

/-- Python `any(char.isdigit() for char in s)`. -/
def containsDigit (s : String) : Bool :=
  s.toList.any (fun c => c.isDigit)

/-- Python `s.isalpha()`: non-empty and every char alphabetic (the call sites
apply it only after the ASCII check, where Lean's `Char.isAlpha` agrees). -/
def isAllAlpha (s : String) : Bool :=
  !s.toList.isEmpty && s.toList.all (fun c => c.isAlpha)

/-- Python `s.encode('ascii')` succeeds: every char below U+0080. -/
def isAsciiStr (s : String) : Bool :=
  s.toList.all (fun c => c.toNat < 128)

/-! ### Rational helpers

Batteries marks the arithmetic of `Rat` (`Rat.add`, `Rat.mul`, …)
`@[irreducible]`, so the kernel cannot evaluate it and `decide`/`rfl` proofs
about concrete prices would get stuck.  `mkRat` and the `num`/`den`
projections do reduce, so the model works with the following kernel-reducible
operations; the bridge lemmas `qAdd_eq`, `qSub_eq`, `qMul_eq`, `qDiv_eq`,
`qLe_iff`, `qLt_iff` below prove each one equal to the standard `ℚ`
operation it stands for. -/

/-- Kernel-reducible `a + b` on `ℚ`. -/
def qAdd (a b : ℚ) : ℚ := mkRat (a.num * b.den + b.num * a.den) (a.den * b.den)

/-- Kernel-reducible `a - b` on `ℚ`. -/
def qSub (a b : ℚ) : ℚ := mkRat (a.num * b.den - b.num * a.den) (a.den * b.den)

/-- Kernel-reducible `a * b` on `ℚ`. -/
def qMul (a b : ℚ) : ℚ := mkRat (a.num * b.num) (a.den * b.den)

/-- Kernel-reducible `b⁻¹` on `ℚ`. -/
def qInv (b : ℚ) : ℚ :=
  mkRat (if 0 ≤ b.num then (b.den : Int) else -(b.den : Int)) b.num.natAbs

/-- Kernel-reducible `a / b` on `ℚ`. -/
def qDiv (a b : ℚ) : ℚ := qMul a (qInv b)

/-- Kernel-reducible `a ≤ b` on `ℚ`. -/
def qLe (a b : ℚ) : Bool := decide (a.num * b.den ≤ b.num * a.den)

/-- Kernel-reducible `a < b` on `ℚ`. -/
def qLt (a b : ℚ) : Bool := decide (a.num * b.den < b.num * a.den)

/-- Floor of a rational (`Int.fdiv` of the normalized fraction; equal to
`⌊q⌋`, written out so the kernel can evaluate it). -/
def ratFloor (q : ℚ) : ℤ := Int.fdiv q.num q.den

/-- Round to the nearest integer, ties to even (Python `round` convention). -/
def roundHalfEven (q : ℚ) : ℤ :=
  let f : ℤ := ratFloor q
  let r : ℚ := qSub q (mkRat f 1)
  if qLt r (mkRat 1 2) then f
  else if qLt (mkRat 1 2) r then f + 1
  else if f % 2 = 0 then f else f + 1

/-- Python `round(x, 2)` on the idealized rational value. -/
def roundTo2 (q : ℚ) : ℚ := mkRat (roundHalfEven (qMul q 100)) 100

/-! ### Decimal parsing: the subset of Python `float(s)` used by size labels -/

/-- Value of a digit string (`none` if any char is not an ASCII digit). -/
def digitsVal (cs : List Char) : Option Nat :=
  cs.foldl
    (fun acc c =>
      match acc with
      | none => none
      | some n => if c.isDigit then some (n * 10 + (c.toNat - 48)) else none)
    (some 0)

/-- Parse a plain decimal literal the way Python `float(s)` does on such input:
surrounding whitespace stripped, optional sign, `d+`, `d+.`, `d+.d+` or `.d+`.
(Exponent/inf/nan forms of Python floats are outside the modelled subset.) -/
def parseDecimal (s : String) : Option ℚ :=
  let cs := (pyStrip s).toList
  let signAndRest : ℚ × List Char :=
    match cs with
    | '-' :: rest => (-1, rest)
    | '+' :: rest => (1, rest)
    | _ => (1, cs)
  let sign := signAndRest.1
  let body := signAndRest.2
  let intPart := body.takeWhile (fun c => c.isDigit)
  let rest := body.dropWhile (fun c => c.isDigit)
  match rest with
  | [] =>
      if intPart.isEmpty then none
      else (digitsVal intPart).map (fun n => qMul sign (mkRat n 1))
  | '.' :: frac =>
      if frac.all (fun c => c.isDigit) then
        if intPart.isEmpty && frac.isEmpty then none
        else
          match digitsVal intPart, digitsVal frac with
          | some i, some f =>
              some (qMul sign (qAdd (mkRat i 1) (mkRat f (10 ^ frac.length))))
          | _, _ => none
      else none
  | _ => none

/-! ### CategoryFilter (`category_filter.py`) -/

namespace CategoryFilter

/-- `categories_flat` restricted to what `is_child_of` reads: id ↦ parent id. -/
abbrev CatMap := List (Int × Int)

/-- `CategoryFilter.is_child_of` (lines 86-109), with an explicit fuel bound on
the recursion depth.  The Python function has no such bound: `none` here means
the Python call recurses past that depth (and for every fuel, that it never
returns). -/
def is_child_of (m : CatMap) (categoryId parentId : Int) : Nat → Option Bool
  | 0 => none
  | fuel + 1 =>
    match m.lookup categoryId with
    | none => some false
    | some par =>
      if par = parentId then some true
      else if par ≠ 0 then is_child_of m par parentId fuel
      else some false

/-- `WOMEN_MAX_SIZE = 39.0` -/
def WOMEN_MAX_SIZE : ℚ := 39

/-- `MEN_MIN_SIZE = 39.5` -/
def MEN_MIN_SIZE : ℚ := mkRat 79 2

/-- `CategoryFilter.analyze_sizes` (lines 170-197): labels that fail to parse as
a float are skipped; returns `(has_women, has_men)`. -/
def analyze_sizes (sizes : List String) : Bool × Bool :=
  sizes.foldl
    (fun acc size =>
      match parseDecimal size with
      | none => acc
      | some q =>
          (acc.1 || qLe q WOMEN_MAX_SIZE, acc.2 || qLe MEN_MIN_SIZE q))
    (false, false)

/-- `ONE_SIZE_CATEGORIES` (lines 24-36). -/
def ONE_SIZE_CATEGORIES : List Int := [119, 123, 124, 125, 131, 132, 133, 1182, 1183]

/-- `has_one_size_category` / `is_one_size_category_check` (lines 138-148, 314-331). -/
def is_one_size_category_check (categoryIds : List Int) : Bool :=
  categoryIds.any (fun cid => ONE_SIZE_CATEGORIES.contains cid)

end CategoryFilter

/-! ### PriceCalculator (`price_calculator.py`) -/

namespace PriceCalculator

/-- Abstract syntax of the arithmetic formula language the config files use
(`+ - * /`, parentheses, the bound variable `x` and parameters `a b c`). -/
inductive FormulaExpr where
  | num (q : ℚ)
  | varX
  | varA
  | varB
  | varC
  | add (e₁ e₂ : FormulaExpr)
  | sub (e₁ e₂ : FormulaExpr)
  | mul (e₁ e₂ : FormulaExpr)
  | div (e₁ e₂ : FormulaExpr)
deriving DecidableEq

/-- Evaluate a formula over `x a b c`; `none` models a Python exception
(division by zero raises `ZeroDivisionError`). -/
def evalExpr (x a b c : ℚ) : FormulaExpr → Option ℚ
  | .num q => some q
  | .varX => some x
  | .varA => some a
  | .varB => some b
  | .varC => some c
  | .add e₁ e₂ =>
      match evalExpr x a b c e₁, evalExpr x a b c e₂ with
      | some v₁, some v₂ => some (qAdd v₁ v₂)
      | _, _ => none
  | .sub e₁ e₂ =>
      match evalExpr x a b c e₁, evalExpr x a b c e₂ with
      | some v₁, some v₂ => some (qSub v₁ v₂)
      | _, _ => none
  | .mul e₁ e₂ =>
      match evalExpr x a b c e₁, evalExpr x a b c e₂ with
      | some v₁, some v₂ => some (qMul v₁ v₂)
      | _, _ => none
  | .div e₁ e₂ =>
      match evalExpr x a b c e₁, evalExpr x a b c e₂ with
      | some v₁, some v₂ => if v₂ = 0 then none else some (qDiv v₁ v₂)
      | _, _ => none

/-- A configured formula string: `some e` for a string that parses to
arithmetic `e`; `none` for a malformed string (Python `eval` raises on it). -/
abbrev Formula := Option FormulaExpr

/-- The literal fallback `"(x * a + 400) * b"` hard-coded in
`get_formula` (line 80) and `_set_defaults` (line 55). -/
def standardFormula : FormulaExpr :=
  .mul (.add (.mul .varX .varA) (.num 400)) .varB

/-- Calculator state after `load_config`/`_set_defaults`: `parameters`
(possibly missing keys, read with `.get(k, default)`), per-delivery default
formulas and per-category formula tables. -/
structure Config where
  paramA : Option ℚ
  paramB : Option ℚ
  paramC : Option ℚ
  defaultFormula : List (String × Formula)
  formulas : List (String × List (String × Formula))

/-- `_set_defaults` (lines 51-58): `a=12, b=1.2, c=6`, default formulas
`"(x * a + 400) * b"` and `"(x * a + 400) * b + 600"`, no category formulas. -/
def defaultConfig : Config where
  paramA := some 12
  paramB := some (mkRat 6 5)
  paramC := some 6
  defaultFormula :=
    [("21-26 дней", some standardFormula),
     ("10-14 дней", some (.add standardFormula (.num 600)))]
  formulas := []

/-- `PriceCalculator.get_formula` (lines 60-80). -/
def get_formula (cfg : Config) (categoryId : Int) (deliveryDays : String) : Formula :=
  let categoryKey := toString categoryId
  match cfg.formulas.lookup categoryKey with
  | some categoryFormulas =>
      match categoryFormulas.lookup deliveryDays with
      | some f => f
      | none => (cfg.defaultFormula.lookup deliveryDays).getD (some standardFormula)
  | none => (cfg.defaultFormula.lookup deliveryDays).getD (some standardFormula)

/-- Evaluation of the resolved formula with the bound variables of
`calculate_price` (lines 96-105): `x` is the base price, `a b c` are read with
defaults 12, 1.2, 6; a malformed formula evaluates to `none`. -/
def evalFormula (cfg : Config) (x : ℚ) : Formula → Option ℚ
  | none => none
  | some e => evalExpr x (cfg.paramA.getD 12) (cfg.paramB.getD (mkRat 6 5)) (cfg.paramC.getD 6) e

/-- `PriceCalculator.calculate_price` (lines 82-116): evaluate the resolved
formula; on success round to 2 decimals; on any evaluation failure fall back to
`round(price_cny * 2.5, 2)`. -/
def calculate_price (cfg : Config) (priceCny : ℚ) (categoryId : Int) (deliveryDays : String) : ℚ :=
  match evalFormula cfg priceCny (get_formula cfg categoryId deliveryDays) with
  | some v => roundTo2 v
  | none => roundTo2 (qDiv (qMul priceCny 5) 2)

end PriceCalculator

/-! ### ProductProcessor (`product_processor.py`) -/

namespace ProductProcessor

/-- `VALID_CLOTHING_SIZES` (lines 20-23). -/
def VALID_CLOTHING_SIZES : List String :=
  ["XXXS", "XXS", "XS", "S", "M", "L", "XL", "XXL", "XXXL", "4XL", "5XL", "6XL", "7XL"]

/-- The product type decided at lines 407-448. -/
inductive SizeType where
  | shoes
  | clothing
  | accessories
deriving DecidableEq

/-- One price tier object, as read by the tier-selection code: `tradeType`
may be absent (the two selection paths read it differently: the `priceInfo`
path and both fast checks use `.get('tradeType', 0)`, while priorities 2-5
of the `price.prices` path use `.get('tradeType')` with no default);
`timeDelivery.max` is read with default 999 (folded into the field);
`activePrice` may be absent; `price` is read with default 0. -/
structure PriceTier where
  tradeType : Option Int := none
  timeDeliveryMax : Int := 999
  activePrice : Option ℚ := none
  price : Option ℚ := none
deriving DecidableEq

/-- One entry of a SKU's `properties` list: `level` is read with default 0
(folded in); the other two fields may be absent. -/
structure SkuProp where
  level : Int := 0
  propertyValueId : Option Int := none
  propertyValue : Option String := none
deriving DecidableEq

/-- One SKU object, restricted to the fields `parse_product_detail` reads in
the variant loop.  `skuId` and `status` are read with default 0 (folded in);
`priceTiers` is `sku.get('price', {}).get('prices', [])`; `sizeFields` holds
the alternate named size fields probed by fallback 3
(`size`/`sizeValue`/`sizeName`/`sizeEu`/`sizeUs`/`sizeUk`). -/
structure Sku where
  skuId : Int := 0
  properties : List SkuProp := []
  status : Int := 0
  priceTiers : List PriceTier := []
  sizeFields : List (String × String) := []

/-- Normalized variant record appended at lines 865-874. -/
structure Variant where
  sku_id : Int
  size_eu : String
  size_type : SizeType
  price_cny : ℚ
  price_rub : ℚ
  is_available : Bool
  stock_status : Int
  price_source : String
deriving DecidableEq

/-- `is_fast` (lines 696-699): delivery window short and not the bulk type. -/
def isFast (t : PriceTier) : Bool :=
  decide (t.timeDeliveryMax ≤ 4) && t.tradeType.getD 0 != 95

/-- The five-priority tier selection of the `priceInfo` path (lines
693-753): first fast `tradeType=2`, then the first tier of trade type 12, 0,
8, 11 in that order (every read is `.get('tradeType', 0)`, so an absent
trade type counts as 0); `none` if no allowed type is present.  The `Int` is
`selected_type`. -/
def selectTierInfo (tiers : List PriceTier) : Option (PriceTier × Int) :=
  match tiers.find? (fun t => t.tradeType.getD 0 == 2 && isFast t) with
  | some t => some (t, 2)
  | none =>
    match tiers.find? (fun t => t.tradeType.getD 0 == 12) with
    | some t => some (t, 12)
    | none =>
      match tiers.find? (fun t => t.tradeType.getD 0 == 0) with
      | some t => some (t, 0)
      | none =>
        match tiers.find? (fun t => t.tradeType.getD 0 == 8) with
        | some t => some (t, 8)
        | none => (tiers.find? (fun t => t.tradeType.getD 0 == 11)).map (fun t => (t, 11))

/-- The five-priority tier selection of the `price.prices` path (lines
791-834): priority 1 reads `.get('tradeType', 0)` like the `priceInfo` path,
but priorities 2-5 compare `.get('tradeType')` with no default, so a tier
with an absent trade type matches nothing there (unlike the `priceInfo`
path, where it counts as type 0). -/
def selectTierDetail (tiers : List PriceTier) : Option (PriceTier × Int) :=
  match tiers.find? (fun t => t.tradeType.getD 0 == 2 && isFast t) with
  | some t => some (t, 2)
  | none =>
    match tiers.find? (fun t => t.tradeType == some 12) with
    | some t => some (t, 12)
    | none =>
      match tiers.find? (fun t => t.tradeType == some 0) with
      | some t => some (t, 0)
      | none =>
        match tiers.find? (fun t => t.tradeType == some 8) with
        | some t => some (t, 8)
        | none => (tiers.find? (fun t => t.tradeType == some 11)).map (fun t => (t, 11))

/-- Outcome of one price-source block: the SKU is dropped (`continue`), the
block sets no price and control falls through, or a positive price (with its
`price_source` tag) is set. -/
inductive PriceOutcome where
  | skip
  | through
  | got (p : ℚ) (src : String)
deriving DecidableEq

/-- Variant 1 (lines 674-776), given that the SKU id is a key of
`price_info_skus`: empty price list falls through; no admissible tier drops
the SKU; otherwise prefer `activePrice` when present and positive, else
`price` (default 0); a non-positive result falls through. -/
def priceFromInfoTiers (tiers : List PriceTier) : PriceOutcome :=
  if tiers.isEmpty then .through
  else
    match selectTierInfo tiers with
    | none => .skip
    | some (t, _) =>
      let raw : ℚ :=
        match t.activePrice with
        | some v => if qLe v 0 then t.price.getD 0 else v
        | none => t.price.getD 0
      if qLt 0 raw then .got (qDiv raw 100) "priceInfo" else .through

/-- The active-over-plain price preference of lines 760-770, as a standalone
function (stated with the standard order on `ℚ`): the tier's `activePrice`
when present and positive, otherwise its plain `price` (default 0). -/
def activeOrPlain (t : PriceTier) : ℚ :=
  match t.activePrice with
  | some v => if v ≤ 0 then t.price.getD 0 else v
  | none => t.price.getD 0

/-- Variant 2 (lines 778-847), reached when variant 1 set no price: empty
price list falls through (the SKU is then dropped at line 855); no admissible
tier drops the SKU; otherwise the tier's plain `price` (default 0) is used,
a non-positive value falling through to the line-855 drop. -/
def priceFromDetailTiers (tiers : List PriceTier) : PriceOutcome :=
  if tiers.isEmpty then .through
  else
    match selectTierDetail tiers with
    | none => .skip
    | some (t, ty) =>
      let dp := t.price.getD 0
      if qLt 0 dp then .got (qDiv dp 100) ("price.prices (type=" ++ toString ty ++ ")")
      else .through

/-- Context of the per-SKU loop: the state computed before line 453. -/
structure Ctx where
  sizeType : SizeType
  propertyToSize : List (Int × String)
  primaryColorId : Option Int
  priceInfoSkus : List (String × List PriceTier)
  referenceSkuId : Option String
  priceFormula : Option (ℚ → ℚ)

/-- Python truthiness of `reference_sku_id` (a string or `None`). -/
def refGiven (ctx : Ctx) : Bool :=
  match ctx.referenceSkuId with
  | some r => r != ""
  | none => false

/-- Python truthiness of `primary_color_id` (an int or `None`). -/
def primaryGiven (ctx : Ctx) : Bool :=
  match ctx.primaryColorId with
  | some v => v != 0
  | none => false

/-- Price resolution for one SKU (lines 670-858): variant 1 runs only when
`str(sku_id)` is a key of `price_info_skus`; variant 2 runs when no positive
price was set; a SKU with no positive price from either block is dropped. -/
def resolvePrice (ctx : Ctx) (sku : Sku) : Option (ℚ × String) :=
  let step1 : PriceOutcome :=
    match ctx.priceInfoSkus.lookup (toString sku.skuId) with
    | none => .through
    | some tiers => priceFromInfoTiers tiers
  match step1 with
  | .skip => none
  | .got p src => some (p, src)
  | .through =>
    match priceFromDetailTiers sku.priceTiers with
    | .skip => none
    | .through => none
    | .got p src => some (p, src)

/-- Direct size lookup (lines 493-501): first property whose
`propertyValueId` is a key of `property_to_size` and whose level is 1 or 2. -/
def sizeFromMapping (p2s : List (Int × String)) (props : List SkuProp) : Option String :=
  props.findSome? fun prop =>
    match prop.propertyValueId with
    | none => none
    | some pid =>
      match p2s.lookup pid with
      | some size => if prop.level == 1 || prop.level == 2 then some size else none
      | none => none

/-- Width-indicator list of fallback 1 (line 506). -/
def widthIndicators1 : List String :=
  ["D", "E", "W", "EE", "EEE", "2E", "3E", "4E", "D宽", "E宽", "2E宽", "宽", "窄"]

/-- Width-indicator list of fallback 2 (line 556). -/
def widthIndicators2 : List String :=
  ["D", "E", "W", "EE", "EEE", "2E", "3E", "4E", "D宽", "E宽", "2E宽"]

/-- Fallback 1 (lines 504-525): first level-2 property value that is not a
shoe-width marker (`indicator in value or value.upper() == indicator`). -/
def sizeFallback1 (props : List SkuProp) : Option String :=
  props.findSome? fun prop =>
    if prop.level == 2 then
      match prop.propertyValue with
      | some v =>
        if v != "" then
          let s := pyStrip v
          if widthIndicators1.any (fun ind => strContainsSub s ind || pyUpper s == ind)
          then none else some s
        else none
      | none => none
    else none

/-- Fallback 2 (lines 527-574): first property value that is ASCII, at most
10 chars, not a width token, not all-alphabetic, and (for shoes) contains a
digit. -/
def sizeFallback2 (sizeType : SizeType) (props : List SkuProp) : Option String :=
  props.findSome? fun prop =>
    match prop.propertyValue with
    | none => none
    | some v =>
      if v == "" then none
      else
        let s := pyStrip v
        if !isAsciiStr s then none
        else if s.length > 10 then none
        else if widthIndicators2.contains (pyUpper s) || pyEndsWith (pyUpper s) "宽" then none
        else if isAllAlpha s then none
        else if sizeType == .shoes && !containsDigit s then none
        else some s

/-- The alternate size field names probed by fallback 3 (line 580). -/
def possibleSizeFields : List String :=
  ["size", "sizeValue", "sizeName", "sizeEu", "sizeUs", "sizeUk"]

/-- Fallback 3 (lines 576-593): alternate named fields on the SKU record,
validated by the digit rule for shoes and the clothing-token rule for
clothing (accessories accept nothing here). -/
def sizeFallback3 (sizeType : SizeType) (sku : Sku) : Option String :=
  possibleSizeFields.findSome? fun field =>
    match sku.sizeFields.lookup field with
    | none => none
    | some fv =>
      if fv == "" then none
      else
        let s := pyStrip fv
        if sizeType == .shoes && containsDigit s then some s
        else if sizeType == .clothing && VALID_CLOTHING_SIZES.contains (pyUpper s) then some s
        else none

/-- Fallback 4 (lines 595-613), shoes only: `re.search` of
`(\d{2}(?:\.\d)?)\D*$` over `str(sku_id)`.  On the decimal string of an
integer this matches exactly when the string ends in two digits, and captures
those final two digits; the captured value must lie in [33.0, 50.0]. -/
def sizeFallback4 (skuId : Int) : Option String :=
  let cs := (toString skuId).toList
  if cs.length ≥ 2 then
    let lastTwo := cs.drop (cs.length - 2)
    if lastTwo.all (fun c => c.isDigit) then
      match digitsVal lastTwo with
      | some v =>
        if 33 ≤ v && v ≤ 50 then some (String.mk lastTwo) else none
      | none => none
    else none
  else none

/-- Python truthiness chaining of the fallback cascade: each later step runs
only `if not size_eu`, i.e. when the value so far is `None` or `""`. -/
def orTruthy (o : Option String) (next : Option String) : Option String :=
  match o with
  | some s => if s != "" then some s else next
  | none => next

/-- The size-resolution cascade of lines 493-613 (before the ONE-SIZE step). -/
def resolveSizeRaw (ctx : Ctx) (sku : Sku) : Option String :=
  orTruthy (sizeFromMapping ctx.propertyToSize sku.properties)
    (orTruthy (sizeFallback1 sku.properties)
      (orTruthy (sizeFallback2 ctx.sizeType sku.properties)
        (orTruthy (sizeFallback3 ctx.sizeType sku)
          (if ctx.sizeType == .shoes then sizeFallback4 sku.skuId else none))))

/-- Fallback 5 (lines 615-625): an unresolved size becomes `"ONE SIZE"` for
accessories and drops the SKU for shoes/clothing. -/
def resolveSize (ctx : Ctx) (sku : Sku) : Option String :=
  match resolveSizeRaw ctx sku with
  | some s =>
    if s != "" then some s
    else if ctx.sizeType == .accessories then some "ONE SIZE" else none
  | none => if ctx.sizeType == .accessories then some "ONE SIZE" else none

/-- Shoe-size normalization (lines 636-647): a size parsing to an integral
float is re-rendered without the fractional part. -/
def normalizeShoeSize (s : String) : String :=
  match parseDecimal s with
  | some q => if q.den == 1 then toString q.num else s
  | none => s

/-- The SKU-level filters at the top of the loop (lines 469-491): for
accessories with a reference SKU id, keep only the SKU whose stringified id
equals it; for shoes/clothing with a primary color, drop SKUs whose first
level-1 property carries a different (truthy) color id. -/
def passFilter (ctx : Ctx) (sku : Sku) : Bool :=
  if ctx.sizeType == .accessories && refGiven ctx then
    toString sku.skuId == ctx.referenceSkuId.getD ""
  else if ctx.sizeType != .accessories && primaryGiven ctx then
    match (sku.properties.find? (fun p => p.level == 1)).bind (fun p => p.propertyValueId) with
    | some cid => !(cid != 0 && cid != ctx.primaryColorId.getD 0)
    | none => true
  else true

/-- One iteration of the SKU loop (lines 457-879): the SKU-level filters,
size resolution, the accessory ONE-SIZE dedup check, shoe-size
normalization, the status check, price resolution, and the variant record.
`foundOS` is `found_one_size_variant`. -/
def processSku (ctx : Ctx) (foundOS : Bool) (sku : Sku) : Option Variant :=
  if !passFilter ctx sku then none
  else
    match resolveSize ctx sku with
    | none => none
    | some size0 =>
      if ctx.sizeType == .accessories && size0 == "ONE SIZE" && foundOS && !refGiven ctx then
        none
      else
        if sku.status != 1 then none
        else
          match resolvePrice ctx sku with
          | none => none
          | some (p, src) =>
            some
              { sku_id := sku.skuId
                size_eu :=
                  if ctx.sizeType == .shoes && size0 != "ONE SIZE" then normalizeShoeSize size0
                  else size0
                size_type := ctx.sizeType
                price_cny := p
                price_rub := match ctx.priceFormula with | some f => f p | none => p
                is_available := true
                stock_status := sku.status
                price_source := src }

/-- The SKU loop (lines 454-879), threading `found_one_size_variant`. -/
def processSkus (ctx : Ctx) : List Sku → Bool → List Variant
  | [], _ => []
  | sku :: rest, foundOS =>
    match processSku ctx foundOS sku with
    | none => processSkus ctx rest foundOS
    | some v =>
      let foundOS' :=
        foundOS || (ctx.sizeType == .accessories && v.size_eu == "ONE SIZE" && !refGiven ctx)
      v :: processSkus ctx rest foundOS'

/-- Size-type determination (lines 407-448): one-size categories force
accessories (clearing the size map); otherwise a clothing token makes it
clothing, a digit-bearing value keeps shoes, and a non-empty map with neither
makes it accessories (clearing the map); an empty map stays shoes. -/
def determineSizeType (categoryIds : List Int) (p2s : List (Int × String)) :
    SizeType × List (Int × String) :=
  if !categoryIds.isEmpty && CategoryFilter.is_one_size_category_check categoryIds then
    (.accessories, [])
  else
    let values := p2s.map (fun e => e.2)
    if values.any (fun v => VALID_CLOTHING_SIZES.contains (pyUpper v)) then (.clothing, p2s)
    else if values.any containsDigit then (.shoes, p2s)
    else if p2s.length > 0 then (.accessories, [])
    else (.shoes, p2s)

/-- Sort key of `safe_float_sort` (lines 898-902): `float(x)`, with
unconvertible labels keyed 999 (sorting last). -/
def shoeSortKey (s : String) : ℚ := (parseDecimal s).getD 999

/-- The clothing ordinal table `size_order` (line 906); absent labels are
keyed 999. -/
def clothingOrder : List (String × Nat) :=
  [("XXXS", 1), ("XXS", 2), ("XS", 3), ("S", 4), ("M", 5), ("L", 6), ("XL", 7),
   ("XXL", 8), ("XXXL", 9), ("4XL", 10), ("5XL", 11), ("6XL", 12), ("7XL", 13)]

/-- Sort key of line 907. -/
def clothingSortKey (s : String) : Nat := (clothingOrder.lookup (pyUpper s)).getD 999

/-- Shoe-size comparison of the summary sort (stated via the
kernel-reducible `qLe`; by `qLe_iff` this is `shoeSortKey a ≤ shoeSortKey b`). -/
def shoeLe (a b : String) : Prop := qLe (shoeSortKey a) (shoeSortKey b) = true

/-- Clothing-size comparison of the summary sort. -/
def clothingLe (a b : String) : Prop := clothingSortKey a ≤ clothingSortKey b

instance : DecidableRel shoeLe := fun a b =>
  inferInstanceAs (Decidable (qLe (shoeSortKey a) (shoeSortKey b) = true))

instance : DecidableRel clothingLe := fun a b =>
  inferInstanceAs (Decidable (clothingSortKey a ≤ clothingSortKey b))

instance : IsTotal String shoeLe :=
  ⟨fun a b => by
    unfold shoeLe qLe
    rcases Int.le_total ((shoeSortKey a).num * (shoeSortKey b).den)
      ((shoeSortKey b).num * (shoeSortKey a).den) with h | h
    · exact Or.inl (by simpa using h)
    · exact Or.inr (by simpa using h)⟩

instance : IsTrans String shoeLe :=
  ⟨fun a b c hab hbc => by
    unfold shoeLe qLe at *
    have h₁ : shoeSortKey a ≤ shoeSortKey b := Rat.le_def.mpr (by simpa using hab)
    have h₂ : shoeSortKey b ≤ shoeSortKey c := Rat.le_def.mpr (by simpa using hbc)
    simpa using Rat.le_def.mp (le_trans h₁ h₂)⟩

instance : IsTotal String clothingLe :=
  ⟨fun a b => Nat.le_total (clothingSortKey a) (clothingSortKey b)⟩

instance : IsTrans String clothingLe :=
  ⟨fun _ _ _ hab hbc => Nat.le_trans hab hbc⟩

/-- The comparison the sizes summary of lines 892-907 is sorted by:
the numeric key for shoes, the ordinal-table key for clothing; for
accessories no sort happens, modelled by the always-true relation. -/
def summaryLe : SizeType → String → String → Prop
  | .shoes => shoeLe
  | .clothing => clothingLe
  | .accessories => fun _ _ => True

instance : ∀ st, DecidableRel (summaryLe st)
  | .shoes => inferInstanceAs (DecidableRel shoeLe)
  | .clothing => inferInstanceAs (DecidableRel clothingLe)
  | .accessories => fun _ _ => .isTrue trivial

/-- The sizes summary of lines 892-907 (used for the log message at 909):
insertion order for accessories, ascending numeric sort for shoes, the
ordinal-table sort for clothing.  Python `sorted` is a stable ascending sort
by key; `List.insertionSort` with the key comparison is the same function. -/
def computeSizesList (st : SizeType) (vs : List Variant) : List String :=
  match st with
  | .accessories => vs.map (fun v => v.size_eu)
  | .shoes => List.insertionSort shoeLe (vs.map (fun v => v.size_eu))
  | .clothing => List.insertionSort clothingLe (vs.map (fun v => v.size_eu))

/-- Inputs of the variant-building part of `parse_product_detail`: the state
at line 407 (the title/image/brand extraction above it does not touch the
variants).  `propertyToSize` is the map built from `saleProperties` at lines
362-379, `primaryColorId` the color chosen at lines 328-373.  A
`referenceSkuId` here is assumed to have survived the `int(...)` parse at
line 332 (a non-numeric id makes the whole call return `None` earlier, in
the un-modelled prefix). -/
structure NormInput where
  categoryIds : List Int := []
  propertyToSize : List (Int × String) := []
  primaryColorId : Option Int := none
  priceInfoSkus : List (String × List PriceTier) := []
  referenceSkuId : Option String := none
  skus : List Sku := []
  priceFormula : Option (ℚ → ℚ) := none

/-- The variants part of the returned record plus the sizes summary list. -/
structure NormResult where
  variants : List Variant
  sizesList : List String
deriving DecidableEq

/-- The determined size type of an input (first component of lines 407-448). -/
def sizeTypeOf (inp : NormInput) : SizeType :=
  (determineSizeType inp.categoryIds inp.propertyToSize).1

/-- The loop context in force from line 453 on: the (possibly cleared)
size map and size type of lines 407-448 plus the per-call inputs. -/
def mkCtx (inp : NormInput) : Ctx :=
  { sizeType := (determineSizeType inp.categoryIds inp.propertyToSize).1
    propertyToSize := (determineSizeType inp.categoryIds inp.propertyToSize).2
    primaryColorId := inp.primaryColorId
    priceInfoSkus := inp.priceInfoSkus
    referenceSkuId := inp.referenceSkuId
    priceFormula := inp.priceFormula }

/-- Lines 881-928: fail (`None`, reason `no_valid_variants`) when no variant
survived; otherwise assemble the result — the variants exactly as the loop
accumulated them, and the sizes summary of lines 892-907. -/
def buildResult (st : SizeType) (vs : List Variant) : Option NormResult :=
  if vs.isEmpty then none
  else some { variants := vs, sizesList := computeSizesList st vs }

/-- `parse_product_detail`, variant-building part (lines 383, 407-928). -/
def parse_product_detail (inp : NormInput) : Option NormResult :=
  if inp.skus.isEmpty then none
  else buildResult (sizeTypeOf inp) (processSkus (mkCtx inp) inp.skus false)

end ProductProcessor

/-! ### Concrete inputs used by the claim theorems -/

/-- A one-node category map: category 1 is a root (parent 0). -/
def c2Map : CategoryFilter.CatMap := [(1, 0)]

/-- A malformed category map whose parent links form a 2-cycle avoiding 0. -/
def c3CycleMap : CategoryFilter.CatMap := [(1, 2), (2, 1)]

namespace ProductProcessor

/-- An ordinary fast standard-price tier: trade type 2, delivery max 1,
price 1000 fen (= 10 CNY). -/
def fastTier1000 : PriceTier := { tradeType := some 2, timeDeliveryMax := 1, price := some 1000 }

/-- C1 counterexample input: a shoe product whose two SKUs resolve, in SKU
order, to sizes "42" then "40". -/
def c1In : NormInput :=
  { propertyToSize := [(11, "42"), (12, "40")],
    skus :=
      [ { skuId := 1, properties := [{ level := 2, propertyValueId := some 11 }],
          status := 1, priceTiers := [fastTier1000] },
        { skuId := 2, properties := [{ level := 2, propertyValueId := some 12 }],
          status := 1, priceTiers := [fastTier1000] } ] }

/-- C1 witness input: an accessory product (category 124, a one-size
category), two SKUs, no reference SKU id. -/
def c1wIn : NormInput :=
  { categoryIds := [124],
    skus :=
      [ { skuId := 3, status := 1, priceTiers := [fastTier1000] },
        { skuId := 4, status := 1, priceTiers := [fastTier1000] } ] }

/-- The record the C1 witness input normalizes to. -/
def c1wRes : NormResult := (parse_product_detail c1wIn).getD ⟨[], []⟩

/-- C5 counterexample tier: both an active price (500) and a plain price
(1000) present, reached through the `price.prices` path. -/
def c5Tier : PriceTier :=
  { tradeType := some 2, timeDeliveryMax := 1, activePrice := some 500, price := some 1000 }

/-- C5 counterexample input: one shoe SKU, absent from `priceInfo`, priced
through its own `price.prices` list. -/
def c5In : NormInput :=
  { propertyToSize := [(11, "42")],
    skus :=
      [ { skuId := 1, properties := [{ level := 2, propertyValueId := some 11 }],
          status := 1, priceTiers := [c5Tier] } ] }

/-- C5 witness tier: active price 300, plain price 700, fast trade type 2. -/
def c5wTier : PriceTier :=
  { tradeType := some 2, timeDeliveryMax := 1, activePrice := some 300, price := some 700 }

/-- C5 witness tier list. -/
def c5wTiers : List PriceTier := [c5wTier]

/-- C6 counterexample: a trade-type-2 tier whose delivery window is absent
(so `timeDelivery.get('max', 999)` is 999, failing the `is_fast` check). -/
def c6Tier2slow : PriceTier := { tradeType := some 2, price := some 1000 }

/-- C6 counterexample: a trade-type-8 tier. -/
def c6Tier8 : PriceTier := { tradeType := some 8, price := some 2000 }

/-- C6 counterexample price list: both a type-2 and a type-8 tier. -/
def c6Tiers : List PriceTier := [c6Tier2slow, c6Tier8]

/-- C6 witness: a fast trade-type-2 tier. -/
def c6wTier2 : PriceTier := { tradeType := some 2, timeDeliveryMax := 3, price := some 900 }

/-- C6 witness price list: a type-8 tier first, then a fast type-2 tier. -/
def c6wTiers : List PriceTier := [{ tradeType := some 8, price := some 500 }, c6wTier2]

/-- C10 counterexample input: an accessory product (category 119) with a
reference SKU id "5" and two SKU entries that both carry id 5. -/
def c10In : NormInput :=
  { categoryIds := [119], referenceSkuId := some "5",
    skus :=
      [ { skuId := 5, status := 1, priceTiers := [fastTier1000] },
        { skuId := 5, status := 1, priceTiers := [fastTier1000] } ] }

/-- C10 witness input: an accessory product (category 123) with reference
SKU id "7" and two SKUs with distinct ids 6 and 7. -/
def c10wIn : NormInput :=
  { categoryIds := [123], referenceSkuId := some "7",
    skus :=
      [ { skuId := 6, status := 1, priceTiers := [fastTier1000] },
        { skuId := 7, status := 1, priceTiers := [fastTier1000] } ] }

/-- The record the C10 witness input normalizes to. -/
def c10wRes : NormResult := (parse_product_detail c10wIn).getD ⟨[], []⟩

end ProductProcessor

/-! ## Bridge lemmas: the kernel-reducible rational operations agree with ℚ -/

theorem qLe_iff (a b : ℚ) : qLe a b = true ↔ a ≤ b := by
  rw [qLe, decide_eq_true_eq]
  exact Rat.le_def.symm

theorem qLt_iff (a b : ℚ) : qLt a b = true ↔ a < b := by
  rw [qLt, decide_eq_true_eq]
  exact Rat.lt_def.symm

theorem qAdd_eq (a b : ℚ) : qAdd a b = a + b := by
  have ha : ((a.den : ℚ)) ≠ 0 := by exact_mod_cast a.den_nz
  have hb : ((b.den : ℚ)) ≠ 0 := by exact_mod_cast b.den_nz
  rw [qAdd, Rat.mkRat_eq_div]
  conv_rhs => rw [← Rat.num_div_den a, ← Rat.num_div_den b]
  push_cast
  field_simp
  try ring

theorem qSub_eq (a b : ℚ) : qSub a b = a - b := by
  have ha : ((a.den : ℚ)) ≠ 0 := by exact_mod_cast a.den_nz
  have hb : ((b.den : ℚ)) ≠ 0 := by exact_mod_cast b.den_nz
  rw [qSub, Rat.mkRat_eq_div]
  conv_rhs => rw [← Rat.num_div_den a, ← Rat.num_div_den b]
  push_cast
  field_simp
  try ring

theorem qMul_eq (a b : ℚ) : qMul a b = a * b := by
  have ha : ((a.den : ℚ)) ≠ 0 := by exact_mod_cast a.den_nz
  have hb : ((b.den : ℚ)) ≠ 0 := by exact_mod_cast b.den_nz
  rw [qMul, Rat.mkRat_eq_div]
  conv_rhs => rw [← Rat.num_div_den a, ← Rat.num_div_den b]
  push_cast
  field_simp

theorem qInv_eq (b : ℚ) : qInv b = b⁻¹ := by
  have hinv : b⁻¹ = (b.den : ℚ) / ((b.num : ℤ) : ℚ) := by
    show b.inv = _
    rw [Rat.inv_def, Rat.divInt_eq_div]
    norm_num
  rw [qInv, Rat.mkRat_eq_div, hinv]
  rcases lt_trichotomy b.num 0 with h | h | h
  · rw [if_neg (not_le.mpr h)]
    have habs : ((b.num.natAbs : ℕ) : ℚ) = -((b.num : ℤ) : ℚ) := by
      rw [Int.cast_natAbs, Int.cast_abs, abs_of_neg (show ((b.num : ℤ) : ℚ) < 0 by exact_mod_cast h)]
    rw [habs]
    push_cast
    rw [neg_div_neg_eq]
  · rw [if_pos h.ge, h]
    simp
  · rw [if_pos h.le]
    have habs : ((b.num.natAbs : ℕ) : ℚ) = ((b.num : ℤ) : ℚ) := by
      rw [Int.cast_natAbs, Int.cast_abs, abs_of_nonneg (show (0 : ℚ) ≤ ((b.num : ℤ) : ℚ) by exact_mod_cast h.le)]
    rw [habs]
    push_cast
    rfl

theorem qDiv_eq (a b : ℚ) : qDiv a b = a / b := by
  rw [qDiv, qMul_eq, qInv_eq, div_eq_mul_inv]

/-! ## Helper lemmas about the SKU loop -/

namespace ProductProcessor

/-- A variant emitted for a SKU carries that SKU's id. -/
theorem processSku_sku_id (ctx : Ctx) (b : Bool) (sku : Sku) (v : Variant)
    (h : processSku ctx b sku = some v) : v.sku_id = sku.skuId := by
  unfold processSku at h
  repeat' split at h
  all_goals injection h
  all_goals rename_i h
  all_goals subst h
  all_goals rfl

/-- In accessory mode with a (truthy) reference SKU id, a SKU that produces a
variant has that exact stringified id. -/
theorem processSku_ref_matches (ctx : Ctx) (b : Bool) (sku : Sku) (v : Variant) (s : String)
    (hacc : ctx.sizeType = .accessories) (href : ctx.referenceSkuId = some s) (hs : s ≠ "")
    (h : processSku ctx b sku = some v) : toString sku.skuId = s := by
  by_cases hpass : passFilter ctx sku = true
  · unfold passFilter at hpass
    rw [if_pos (by simp [hacc, refGiven, href, hs])] at hpass
    have : toString sku.skuId = ctx.referenceSkuId.getD "" := by simpa using hpass
    rw [href] at this
    simpa using this
  · have hfalse : passFilter ctx sku = false := by simpa using hpass
    unfold processSku at h
    rw [hfalse] at h
    simp at h

/-- The emitted variants' SKU ids form a subsequence of the input SKU ids:
the loop appends in SKU order and only ever skips. -/
theorem processSkus_sublist (ctx : Ctx) :
    ∀ (skus : List Sku) (b : Bool),
      ((processSkus ctx skus b).map (fun v => v.sku_id)).Sublist
        (skus.map (fun k => k.skuId)) := by
  intro skus
  induction skus with
  | nil => intro b; simp [processSkus]
  | cons sku rest ih =>
    intro b
    simp only [processSkus]
    cases hps : processSku ctx b sku with
    | none => simpa using List.Sublist.cons sku.skuId (ih b)
    | some v =>
      have hvid : v.sku_id = sku.skuId := processSku_sku_id ctx b sku v hps
      simp only [List.map_cons, hvid]
      exact List.Sublist.cons₂ sku.skuId (ih _)

/-- In accessory mode with a reference SKU id `s`, every emitted variant has
stringified id `s`, and there are no more variants than SKU entries whose id
stringifies to `s`. -/
theorem processSkus_ref (ctx : Ctx) (s : String)
    (hacc : ctx.sizeType = .accessories) (href : ctx.referenceSkuId = some s) (hs : s ≠ "") :
    ∀ (skus : List Sku) (b : Bool),
      (∀ v ∈ processSkus ctx skus b, toString v.sku_id = s)
      ∧ (processSkus ctx skus b).length
          ≤ (skus.filter (fun k => toString k.skuId == s)).length := by
  intro skus
  induction skus with
  | nil => intro b; simp [processSkus]
  | cons sku rest ih =>
    intro b
    simp only [processSkus]
    cases hps : processSku ctx b sku with
    | none =>
      refine ⟨(ih b).1, le_trans (ih b).2 ?_⟩
      rw [List.filter_cons]
      split
      · simp
      · exact le_refl _
    | some v =>
      have hvid : v.sku_id = sku.skuId := processSku_sku_id ctx b sku v hps
      have hmatch : toString sku.skuId = s :=
        processSku_ref_matches ctx b sku v s hacc href hs hps
      constructor
      · intro x hx
        rcases List.mem_cons.mp hx with rfl | hx'
        · rw [hvid, hmatch]
        · exact (ih _).1 x hx'
      · rw [List.filter_cons, if_pos (by simp [hmatch])]
        simpa using Nat.succ_le_succ (ih _).2

/-- If the stringified SKU ids are pairwise distinct, at most one SKU entry
stringifies to any given `s`. -/
theorem filter_id_len_le_one (s : String) :
    ∀ (skus : List Sku), (skus.map (fun k => toString k.skuId)).Nodup →
      (skus.filter (fun k => toString k.skuId == s)).length ≤ 1 := by
  intro skus
  induction skus with
  | nil => simp
  | cons sku rest ih =>
    intro hnd
    rw [List.map_cons, List.nodup_cons] at hnd
    rw [List.filter_cons]
    split
    · rename_i hfa
      have hfa' : toString sku.skuId = s := by simpa using hfa
      have hnil : rest.filter (fun k => toString k.skuId == s) = [] := by
        rw [List.filter_eq_nil_iff]
        intro x hx hpx
        have hxs : toString x.skuId = s := by simpa using hpx
        exact hnd.1 (by
          rw [← hfa'] at hxs
          exact hxs ▸ List.mem_map_of_mem (fun k => toString k.skuId) hx)
      simp [hnil]
    · exact le_trans (ih hnd.2) (by norm_num)

/-- Every list is `Sorted` under the always-true relation. -/
theorem sorted_trivial (l : List String) : List.Sorted (fun _ _ => True) l := by
  induction l with
  | nil => exact List.Pairwise.nil
  | cons a t ih => exact List.Pairwise.cons (fun _ _ => trivial) ih

end ProductProcessor

/-! ## Claim theorems -/

/-! ### C2 — reflexivity of `is_child_of` -/

/-- C2, counterexample: the claim says `is_child_of(c, c)` returns true for
every `c`, present in the map or not.  On the map `{1 ↦ parent 0}` the code
returns `False` both for the present id 1 and for the absent id 7 (fuel 20 is
ample: the walk finishes in one step). -/
theorem C2_counterexample :
    CategoryFilter.is_child_of c2Map 1 1 20 = some false
    ∧ c2Map.lookup 1 = some 0
    ∧ CategoryFilter.is_child_of c2Map 7 7 20 = some false :=
  ⟨by decide, by decide, by decide⟩

/-- C2, amended: `is_child_of(c, c)` is not reflexive: it returns false
whenever `c` is absent from the category map, and also whenever `c` is
present with parent 0 (a root) and `c ≠ 0`; it can only return true when the
parent chain from `c` comes back to `c`. -/
theorem C2_amended (m : CategoryFilter.CatMap) (c : Int) (f : Nat)
    (h : m.lookup c = none ∨ (m.lookup c = some 0 ∧ c ≠ 0)) :
    CategoryFilter.is_child_of m c c (f + 1) = some false := by
  rcases h with h | ⟨h, hc⟩
  · simp [CategoryFilter.is_child_of, h]
  · simp [CategoryFilter.is_child_of, h, Ne.symm hc]

/-- C2 witness: the amended theorem applied to the absent id 7 in `c2Map`. -/
theorem C2_amended_witness :
    CategoryFilter.is_child_of c2Map 7 7 4 = some false :=
  C2_amended c2Map 7 3 (Or.inl (by decide))

/-! ### C3 — termination of the ancestry walk -/

/-- C3: on the cyclic map `{1 ↦ parent 2, 2 ↦ parent 1}` the query
`is_child_of(1, 3)` exhausts every recursion-depth budget: the Python code,
which has no depth guard or visited-set, recurses forever (in CPython, until
`RecursionError`).  This contradicts the claim that the walk always
terminates. -/
theorem C3_nonterminating :
    ∀ f : Nat, CategoryFilter.is_child_of c3CycleMap 1 3 f = none := by
  have key : ∀ f : Nat,
      CategoryFilter.is_child_of c3CycleMap 1 3 f = none
      ∧ CategoryFilter.is_child_of c3CycleMap 2 3 f = none := by
    intro f
    induction f with
    | zero => exact ⟨rfl, rfl⟩
    | succ n ih =>
      refine ⟨?_, ?_⟩
      · show CategoryFilter.is_child_of c3CycleMap 1 3 (n + 1) = none
        simpa [CategoryFilter.is_child_of, c3CycleMap] using ih.2
      · show CategoryFilter.is_child_of c3CycleMap 2 3 (n + 1) = none
        simpa [CategoryFilter.is_child_of, c3CycleMap] using ih.1
  exact fun f => (key f).1

/-! ### C4 — the 39.0 / 39.5 gender thresholds -/

/-- C4, counterexample: the label "39.25" parses as a float (to `157/4`,
written `mkRat 157 4`) but satisfies neither `size <= 39.0` nor
`size >= 39.5` — the thresholds have a gap, so "exactly one of the two
predicates" fails: `analyze_sizes` reports `(False, False)`. -/
theorem C4_counterexample :
    parseDecimal "39.25" = some (mkRat 157 4)
    ∧ CategoryFilter.analyze_sizes ["39.25"] = (false, false) :=
  ⟨by decide, by decide⟩

/-- C4, amended: the two thresholds have no overlap — no size label that
parses as a float satisfies both gender predicates — but labels strictly
between 39.0 and 39.5 satisfy neither. -/
theorem C4_amended (s : String) (q : ℚ) (h : parseDecimal s = some q) :
    ¬((CategoryFilter.analyze_sizes [s]).1 = true
      ∧ (CategoryFilter.analyze_sizes [s]).2 = true) := by
  rintro ⟨h1, h2⟩
  simp only [CategoryFilter.analyze_sizes, List.foldl_cons, List.foldl_nil, h,
    Bool.false_or] at h1 h2
  have hq1 : q ≤ CategoryFilter.WOMEN_MAX_SIZE := (qLe_iff _ _).mp h1
  have hq2 : CategoryFilter.MEN_MIN_SIZE ≤ q := (qLe_iff _ _).mp h2
  have hW : CategoryFilter.WOMEN_MAX_SIZE = 39 := rfl
  have hM : CategoryFilter.MEN_MIN_SIZE = 79 / 2 := by
    rw [CategoryFilter.MEN_MIN_SIZE, Rat.mkRat_eq_div]
    norm_num
  rw [hW] at hq1
  rw [hM] at hq2
  linarith

/-- C4 witness: the amended theorem applied to the parsing label "39". -/
theorem C4_amended_witness :
    ¬((CategoryFilter.analyze_sizes ["39"]).1 = true
      ∧ (CategoryFilter.analyze_sizes ["39"]).2 = true) :=
  C4_amended "39" 39 (by decide)

/-! ### C8 — calculate_price never raises, falls back to `x * 2.5` -/

/-- C8: for every configuration, base price, category and delivery tier,
`calculate_price` returns a value: the rounded formula value when evaluation
succeeds, and — exactly when formula evaluation fails (malformed formula,
division by zero) — the fixed fallback `round(price_cny * 2.5, 2)`
(`qDiv (qMul x 5) 2` is the kernel-computable `x * 5 / 2`). -/
theorem C8_total_with_fallback :
    ∀ (cfg : PriceCalculator.Config) (x : ℚ) (cid : Int) (d : String),
      (PriceCalculator.evalFormula cfg x (PriceCalculator.get_formula cfg cid d) = none
        ∧ PriceCalculator.calculate_price cfg x cid d = roundTo2 (qDiv (qMul x 5) 2))
      ∨ (∃ v, PriceCalculator.evalFormula cfg x (PriceCalculator.get_formula cfg cid d) = some v
        ∧ PriceCalculator.calculate_price cfg x cid d = roundTo2 v) := by
  intro cfg x cid d
  cases h : PriceCalculator.evalFormula cfg x (PriceCalculator.get_formula cfg cid d) with
  | none => exact Or.inl ⟨rfl, by unfold PriceCalculator.calculate_price; rw [h]⟩
  | some v => exact Or.inr ⟨v, rfl, by unfold PriceCalculator.calculate_price; rw [h]⟩

/-! ### C9 — default formula value at base price 100 -/

/-- C9: with the default configuration (`a=12, b=1.2`, default formula
`(x * a + 400) * b` for the "21-26 дней" tier and no category overrides),
`calculate_price(100, c, "21-26 дней")` is exactly 1920 for every category
id `c`:  `(100 * 12 + 400) * 1.2 = 1920`, and `round(1920.0, 2) = 1920.0`. -/
theorem C9_default_price (cid : Int) :
    PriceCalculator.calculate_price PriceCalculator.defaultConfig 100 cid "21-26 дней" = 1920 :=
  rfl

/-! ### C1 — ordering of the returned variants -/

namespace ProductProcessor

/-- `buildResult` succeeds exactly with the loop's variants and the computed
sizes summary. -/
theorem buildResult_spec (st : SizeType) (vs : List Variant) (r : NormResult)
    (h : buildResult st vs = some r) :
    r.variants = vs ∧ r.sizesList = computeSizesList st vs := by
  unfold buildResult at h
  split at h
  · exact absurd h (by simp)
  · injection h
    rename_i h
    subst h
    exact ⟨rfl, rfl⟩

/-- The sizes summary is a permutation of the variants' sizes, is sorted in
the relation matching the size type, and for accessories is exactly the
variants' sizes in order. -/
theorem computeSizesList_spec (st : SizeType) (vs : List Variant) :
    (computeSizesList st vs).Perm (vs.map (fun v => v.size_eu))
    ∧ List.Sorted (summaryLe st) (computeSizesList st vs)
    ∧ (st = .accessories → computeSizesList st vs = vs.map (fun v => v.size_eu)) := by
  cases st with
  | shoes =>
    exact ⟨List.perm_insertionSort shoeLe _, List.sorted_insertionSort shoeLe _,
      fun h => nomatch h⟩
  | clothing =>
    exact ⟨List.perm_insertionSort clothingLe _, List.sorted_insertionSort clothingLe _,
      fun h => nomatch h⟩
  | accessories =>
    exact ⟨List.Perm.refl _, sorted_trivial _, fun _ => rfl⟩

end ProductProcessor

/-- C1, counterexample: the claim says the variants list of the returned
record is ordered by size ascending for shoes.  On a shoe product whose SKUs
resolve, in SKU order, to "42" then "40", the returned variants stay in
insertion order ["42", "40"] — not ascending — while the ascending sort
["40", "42"] only appears in the sizes summary built for the log message. -/
theorem C1_counterexample :
    (ProductProcessor.parse_product_detail ProductProcessor.c1In).map
        (fun r => (r.variants.map (fun v => v.size_eu), r.sizesList))
      = some (["42", "40"], ["40", "42"])
    ∧ ProductProcessor.sizeTypeOf ProductProcessor.c1In = .shoes
    ∧ ¬ List.Sorted ProductProcessor.shoeLe ["42", "40"] :=
  ⟨by decide, by decide, by decide⟩

/-- C1, amended: the ascending order (numeric for shoes, ordinal table for
clothing) applies to the sizes summary list computed for logging, which is a
sorted permutation of the variants' sizes; the variants list itself is in
SKU-processing (insertion) order for every size type — its SKU ids form a
subsequence of the input SKU list — and for accessories the summary equals
the variants' sizes in insertion order. -/
theorem C1_amended (inp : ProductProcessor.NormInput) (r : ProductProcessor.NormResult)
    (h : ProductProcessor.parse_product_detail inp = some r) :
    r.sizesList.Perm (r.variants.map (fun v => v.size_eu))
    ∧ List.Sorted (ProductProcessor.summaryLe (ProductProcessor.sizeTypeOf inp)) r.sizesList
    ∧ (r.variants.map (fun v => v.sku_id)).Sublist (inp.skus.map (fun k => k.skuId))
    ∧ (ProductProcessor.sizeTypeOf inp = .accessories →
        r.sizesList = r.variants.map (fun v => v.size_eu)) := by
  unfold ProductProcessor.parse_product_detail at h
  split at h
  · exact absurd h (by simp)
  · obtain ⟨hv, hsz⟩ := ProductProcessor.buildResult_spec _ _ _ h
    obtain ⟨hperm, hsort, haccs⟩ :=
      ProductProcessor.computeSizesList_spec (ProductProcessor.sizeTypeOf inp)
        (ProductProcessor.processSkus (ProductProcessor.mkCtx inp) inp.skus false)
    refine ⟨?_, ?_, ?_, ?_⟩
    · rw [hv, hsz]
      exact hperm
    · rw [hsz]
      exact hsort
    · rw [hv]
      exact ProductProcessor.processSkus_sublist (ProductProcessor.mkCtx inp) inp.skus false
    · intro hacc
      rw [hv, hsz]
      exact haccs hacc

/-- C1 witness: the amended theorem applied to the accessory input `c1wIn`
(category 124, two SKUs, no reference id), which yields one ONE SIZE
variant. -/
theorem C1_amended_witness :
    ProductProcessor.c1wRes.sizesList.Perm
        (ProductProcessor.c1wRes.variants.map (fun v => v.size_eu))
    ∧ List.Sorted (ProductProcessor.summaryLe (ProductProcessor.sizeTypeOf ProductProcessor.c1wIn))
        ProductProcessor.c1wRes.sizesList
    ∧ (ProductProcessor.c1wRes.variants.map (fun v => v.sku_id)).Sublist
        (ProductProcessor.c1wIn.skus.map (fun k => k.skuId))
    ∧ ProductProcessor.c1wRes.sizesList
        = ProductProcessor.c1wRes.variants.map (fun v => v.size_eu) := by
  have h := C1_amended ProductProcessor.c1wIn ProductProcessor.c1wRes (by decide)
  exact ⟨h.1, h.2.1, h.2.2.1, h.2.2.2 (by decide)⟩

/-! ### C5 — activePrice preference in the two price-source paths -/

/-- C5, counterexample: the claim says that in either price-source path the
emitted price prefers the selected tier's positive `activePrice` (here 500,
which would give 5.0 after the division by 100).  For a SKU priced through
its own `price.prices` list the code uses the plain `price` field (1000),
emitting 10.0 — the `activePrice` preference exists only in the `priceInfo`
path. -/
theorem C5_counterexample :
    (ProductProcessor.parse_product_detail ProductProcessor.c5In).map
        (fun r => r.variants.map (fun v => (v.price_cny, v.price_source)))
      = some [(10, "price.prices (type=2)")]
    ∧ ProductProcessor.c5Tier.activePrice = some 500
    ∧ (0 : ℚ) < 500
    ∧ qDiv 500 100 ≠ 10 :=
  ⟨by decide, by decide, by norm_num, by decide⟩

/-- C5, amended: when a tier is selected, the `priceInfo` path emits the
tier's `activePrice` if present and positive, else its plain `price`,
divided by 100 (dropping the SKU when the result is not positive); the
`price.prices` path always emits the plain `price` field divided by 100,
ignoring `activePrice`. -/
theorem C5_amended (tiers : List ProductProcessor.PriceTier)
    (t tp : ProductProcessor.PriceTier) (ty typ : Int)
    (hsel : ProductProcessor.selectTierInfo tiers = some (t, ty))
    (hselp : ProductProcessor.selectTierDetail tiers = some (tp, typ)) :
    ProductProcessor.priceFromInfoTiers tiers =
      (if 0 < ProductProcessor.activeOrPlain t then
        ProductProcessor.PriceOutcome.got (ProductProcessor.activeOrPlain t / 100) "priceInfo"
      else ProductProcessor.PriceOutcome.through)
    ∧ ProductProcessor.priceFromDetailTiers tiers =
      (if 0 < tp.price.getD 0 then
        ProductProcessor.PriceOutcome.got (tp.price.getD 0 / 100)
          ("price.prices (type=" ++ toString typ ++ ")")
      else ProductProcessor.PriceOutcome.through) := by
  have hne : tiers.isEmpty = false := by
    cases tiers with
    | nil => simp [ProductProcessor.selectTierInfo] at hsel
    | cons a l => rfl
  have hraw :
      (match t.activePrice with
        | some v => if qLe v 0 then t.price.getD 0 else v
        | none => t.price.getD 0) = ProductProcessor.activeOrPlain t := by
    unfold ProductProcessor.activeOrPlain
    cases t.activePrice with
    | none => rfl
    | some v => simp only [qLe_iff]
  constructor
  · unfold ProductProcessor.priceFromInfoTiers
    rw [hne]
    simp only [Bool.false_eq_true, if_false, hsel, hraw]
    by_cases hp : 0 < ProductProcessor.activeOrPlain t
    · rw [if_pos ((qLt_iff 0 _).mpr hp), if_pos hp, qDiv_eq]
    · rw [if_neg (fun hc => hp ((qLt_iff 0 _).mp hc)), if_neg hp]
  · unfold ProductProcessor.priceFromDetailTiers
    rw [hne]
    simp only [Bool.false_eq_true, if_false, hselp]
    by_cases hp : 0 < tp.price.getD 0
    · rw [if_pos ((qLt_iff 0 _).mpr hp), if_pos hp, qDiv_eq]
    · rw [if_neg (fun hc => hp ((qLt_iff 0 _).mp hc)), if_neg hp]

/-- C5 witness: the amended theorem applied to a tier list whose selected
tier has `activePrice` 300 and plain `price` 700: the `priceInfo` path emits
3, the `price.prices` path 7. -/
theorem C5_amended_witness :
    ProductProcessor.priceFromInfoTiers ProductProcessor.c5wTiers
      = ProductProcessor.PriceOutcome.got 3 "priceInfo"
    ∧ ProductProcessor.priceFromDetailTiers ProductProcessor.c5wTiers
      = ProductProcessor.PriceOutcome.got 7 "price.prices (type=2)" := by
  have h := C5_amended ProductProcessor.c5wTiers ProductProcessor.c5wTier
    ProductProcessor.c5wTier 2 2 (by decide) (by decide)
  constructor
  · rw [h.1]
    norm_num [ProductProcessor.activeOrPlain, ProductProcessor.c5wTier]
  · rw [h.2]
    norm_num [ProductProcessor.c5wTier]
    rfl

/-! ### C6 — priority of trade-type 2 over trade-type 8 -/

/-- C6, counterexample: the claim says that whenever a price list has both a
type-2 and a type-8 tier, the type-2 tier's price is selected.  If the
type-2 tier's delivery window is absent (default 999, failing the
`max_delivery <= 4` fast check), the scan skips it and selects the type-8
tier. -/
theorem C6_counterexample :
    ProductProcessor.c6Tier2slow.tradeType = some 2
    ∧ ProductProcessor.c6Tier2slow ∈ ProductProcessor.c6Tiers
    ∧ ProductProcessor.c6Tier8.tradeType = some 8
    ∧ ProductProcessor.c6Tier8 ∈ ProductProcessor.c6Tiers
    ∧ ProductProcessor.selectTierInfo ProductProcessor.c6Tiers
        = some (ProductProcessor.c6Tier8, 8)
    ∧ ProductProcessor.selectTierDetail ProductProcessor.c6Tiers
        = some (ProductProcessor.c6Tier8, 8) :=
  ⟨by decide, by decide, by decide, by decide, by decide, by decide⟩

/-- C6, amended: a type-2 tier takes priority over a type-8 tier only when
the type-2 tier also passes the fast-delivery check (`timeDelivery.max <= 4`
and trade type not 95); whenever the list contains such a fast type-2 tier,
the selection returns a type-2 tier with `selected_type` 2. -/
theorem C6_amended (tiers : List ProductProcessor.PriceTier)
    (t : ProductProcessor.PriceTier)
    (hmem : t ∈ tiers) (h2 : t.tradeType = some 2)
    (hfast : ProductProcessor.isFast t = true) :
    (∃ u, ProductProcessor.selectTierInfo tiers = some (u, 2)
      ∧ u.tradeType.getD 0 = 2 ∧ ProductProcessor.isFast u = true)
    ∧ (∃ u, ProductProcessor.selectTierDetail tiers = some (u, 2)
      ∧ u.tradeType.getD 0 = 2 ∧ ProductProcessor.isFast u = true) := by
  have hfind :
      (tiers.find?
        (fun t => t.tradeType.getD 0 == 2 && ProductProcessor.isFast t)).isSome := by
    rw [List.find?_isSome]
    exact ⟨t, hmem, by simp [h2, hfast]⟩
  obtain ⟨u, hu⟩ := Option.isSome_iff_exists.mp hfind
  have hpu := List.find?_some hu
  simp only [Bool.and_eq_true, beq_iff_eq] at hpu
  constructor
  · refine ⟨u, ?_, hpu.1, hpu.2⟩
    unfold ProductProcessor.selectTierInfo
    rw [hu]
  · refine ⟨u, ?_, hpu.1, hpu.2⟩
    unfold ProductProcessor.selectTierDetail
    rw [hu]

/-- C6 witness: the amended theorem applied to a list holding a type-8 tier
and a fast type-2 tier. -/
theorem C6_amended_witness :
    (∃ u, ProductProcessor.selectTierInfo ProductProcessor.c6wTiers = some (u, 2)
      ∧ u.tradeType.getD 0 = 2 ∧ ProductProcessor.isFast u = true)
    ∧ (∃ u, ProductProcessor.selectTierDetail ProductProcessor.c6wTiers = some (u, 2)
      ∧ u.tradeType.getD 0 = 2 ∧ ProductProcessor.isFast u = true) :=
  C6_amended ProductProcessor.c6wTiers ProductProcessor.c6wTier2
    (by decide) (by decide) (by decide)

/-! ### C10 — accessories with a reference SKU id -/

/-- C10, counterexample: the claim says the returned record contains at most
one variant.  With two SKU entries both carrying the reference id 5, both
pass the string-equality filter and both are emitted: the record has two
variants. -/
theorem C10_counterexample :
    (ProductProcessor.parse_product_detail ProductProcessor.c10In).map
        (fun r => (r.variants.length, r.variants.map (fun v => v.sku_id)))
      = some (2, [5, 5])
    ∧ ProductProcessor.sizeTypeOf ProductProcessor.c10In = .accessories :=
  ⟨by decide, by decide⟩

/-- C10, amended: for an accessory product with a (non-empty) reference SKU
id, every SKU whose stringified id differs is skipped before size
resolution: every returned variant's stringified id equals the reference id,
and the variant count is bounded by the number of SKU entries carrying that
id — hence at most one variant when the SKU ids are pairwise distinct. -/
theorem C10_amended (inp : ProductProcessor.NormInput) (r : ProductProcessor.NormResult)
    (s : String)
    (h : ProductProcessor.parse_product_detail inp = some r)
    (hacc : ProductProcessor.sizeTypeOf inp = .accessories)
    (href : inp.referenceSkuId = some s) (hs : s ≠ "") :
    (∀ v ∈ r.variants, toString v.sku_id = s)
    ∧ r.variants.length ≤ (inp.skus.filter (fun k => toString k.skuId == s)).length
    ∧ ((inp.skus.map (fun k => toString k.skuId)).Nodup → r.variants.length ≤ 1) := by
  unfold ProductProcessor.parse_product_detail at h
  split at h
  · exact absurd h (by simp)
  · obtain ⟨hv, _⟩ := ProductProcessor.buildResult_spec _ _ _ h
    have hctx1 : (ProductProcessor.mkCtx inp).sizeType = .accessories := by
      simpa [ProductProcessor.mkCtx, ProductProcessor.sizeTypeOf] using hacc
    have hctx2 : (ProductProcessor.mkCtx inp).referenceSkuId = some s := by
      simpa [ProductProcessor.mkCtx] using href
    obtain ⟨h1, h2⟩ :=
      ProductProcessor.processSkus_ref (ProductProcessor.mkCtx inp) s hctx1 hctx2 hs
        inp.skus false
    refine ⟨?_, ?_, ?_⟩
    · rw [hv]
      exact h1
    · rw [hv]
      exact h2
    · intro hnd
      rw [hv]
      exact le_trans h2 (ProductProcessor.filter_id_len_le_one s inp.skus hnd)

/-- C10 witness: the amended theorem applied to an accessory input with
reference id "7" and SKUs 6 and 7 (distinct ids): exactly the SKU with id 7
is loaded. -/
theorem C10_amended_witness :
    (∀ v ∈ ProductProcessor.c10wRes.variants, toString v.sku_id = "7")
    ∧ ProductProcessor.c10wRes.variants.length
        ≤ (ProductProcessor.c10wIn.skus.filter (fun k => toString k.skuId == "7")).length
    ∧ ProductProcessor.c10wRes.variants.length ≤ 1 := by
  have h := C10_amended ProductProcessor.c10wIn ProductProcessor.c10wRes "7"
    (by decide) (by decide) rfl (by decide)
  exact ⟨h.1, h.2.1, h.2.2 (by decide)⟩
